import Mathlib

/-!
Verification development for the sandbox abstraction layer
(`backend/sandbox/sandbox.py`).

The module provisions, resumes and tears down an isolated execution
environment through one of two backends, chosen once at module
initialization from the `DAYTONA_API_KEY` environment variable:

* a remote orchestration backend (the Daytona API), and
* a local docker-compose backend whose process/session/filesystem
  operations shell out to `docker exec` / `tmux`.

The embedding below is shallow: every function of the Python module is a
Lean function over an explicit state.  External effects (subprocess
invocations, remote API calls) are recorded in a trace and interpreted
against an explicit world.  The behaviours of the external collaborators
(the docker CLI, tmux, and the remote API) are not part of the
repository's source; where a theorem needs them they are modelled from
the spec's external-interface contracts and marked as such.

Python exceptions are modelled with `Except PyErr`; `subprocess.run`
raises `CalledProcessError` exactly when it is invoked with `check=True`
and the child exits non-zero, which is the only failure channel the
claims exercise.
-/

namespace SandboxSpec

/-- Byte strings, as Python `bytes`: a list of byte values. -/
abbrev Bytes := List Nat

/-- The Python exceptions the module can propagate. -/
inductive PyErr where
  /-- `subprocess.CalledProcessError` from `check=True` / `check_output`. -/
  | calledProcessError (returncode : Int)
  /-- failure of the remote API to retrieve a sandbox by id. -/
  | sandboxNotFound (id : String)
deriving Repr, DecidableEq

/-- First-match association-list lookup (used for environments, container
filesystems and the remote sandbox table). -/
def alookup {β : Type} : List (String × β) → String → Option β
  | [], _ => none
  | (k, v) :: rest, key => if k = key then some v else alookup rest key

/-- Update an association list so that `key` maps to `v` and nothing else
changed. -/
def aset {β : Type} (l : List (String × β)) (key : String) (v : β) :
    List (String × β) :=
  (key, v) :: l.filter (fun e => e.1 ≠ key)

/-- Remove `key` from an association list. -/
def aremove {β : Type} (l : List (String × β)) (key : String) :
    List (String × β) :=
  l.filter (fun e => e.1 ≠ key)

/-- ASCII whitespace as recognized by Python's `str.strip()`:
space, tab, newline, carriage return, vertical tab, form feed. -/
def pyIsSpace (c : Char) : Bool :=
  c == ' ' || c == '\t' || c == '\n' || c == '\r' || c.toNat == 11 || c.toNat == 12

/-- Python `str.strip()`: drop leading and trailing whitespace. -/
def pyStrip (s : String) : String :=
  String.mk (((s.data.dropWhile pyIsSpace).reverse.dropWhile pyIsSpace).reverse)

/-- Python `os.getenv(key, default)` over an explicit process environment. -/
def osGetenvDefault (env : List (String × String)) (key d : String) : String :=
  (alookup env key).getD d

/-- Embeds line 16 of the source:
`_daytona_api_key = os.getenv("DAYTONA_API_KEY", "").strip()`. -/
def daytonaApiKeyOf (env : List (String × String)) : String :=
  pyStrip (osGetenvDefault env "DAYTONA_API_KEY" "")

/-- Embeds line 17 of the source: `_use_daytona = bool(_daytona_api_key)`.
Python `bool` of a string is "the string is non-empty".  Evaluated once,
from the process environment at module initialization. -/
def useDaytona (env : List (String × String)) : Bool :=
  decide (daytonaApiKeyOf env ≠ "")

/-- Models `subprocess.run(argv, check := c)` observed only through its
raising behaviour: `CalledProcessError` exactly when `check` is set and
the child exited non-zero. -/
def subprocessRun (check : Bool) (rc : Int) : Except PyErr Unit :=
  if check ∧ rc ≠ 0 then .error (.calledProcessError rc) else .ok ()

/-! ## Local backend world

The local backend drives an external container runtime.  The world holds
the container's filesystem and tmux pane contents, and an exit-code
oracle for each kind of external invocation (the code cannot assume the
CLI succeeds, and the claims quantify over both outcomes). -/

/-- The external calls the local backend makes, recorded in order. -/
inductive ExtCall where
  | composeUp
  | composePsQ
  | composeDown
  | tmuxNew (cid sid : String)
  | tmuxKill (cid sid : String)
  | tmuxSend (cid sid command : String)
  | catWrite (cid path : String)
  | catRead (cid path : String)
  | mkdirP (cid path : String)
  | chmodCall (cid perms path : String)
  | rmF (cid path : String)
deriving Repr, DecidableEq

/-- The observable state of the external container runtime plus an exit
code oracle for each invocation the module makes.  Modelled from the
spec: the runtime executes shell commands in a named container, streams
bytes in/out for file transfer, and hosts tmux sessions. -/
structure LocalWorld where
  /-- the container's filesystem: path to byte content. -/
  files : List (String × Bytes)
  /-- tmux panes: session id to the list of injected command lines. -/
  panes : List (String × List String)
  /-- exit code of `docker compose up -d`. -/
  composeUpRc : Int
  /-- exit code of `docker compose ps -q kortix-suna`. -/
  psQRc : Int
  /-- stdout of `docker compose ps -q kortix-suna` (the container id). -/
  psQOutput : String
  /-- exit code of `docker compose down`. -/
  composeDownRc : Int
  /-- exit code of `tmux new-session`. -/
  tmuxNewRc : Int
  /-- exit code of `tmux kill-session`. -/
  tmuxKillRc : Int
  /-- exit code of `tmux send-keys`. -/
  tmuxSendRc : Int
  /-- exit code of `mkdir -p`. -/
  mkdirRc : Int
  /-- exit code of `chmod`. -/
  chmodRc : Int
  /-- exit code of `rm -f`. -/
  rmRc : Int
deriving Repr, DecidableEq

/-- Embeds the `LocalSandbox` handle: its `id` is the container id; its
`process` and `fs` members are bound to the same container id, so the
handle carries just the id, and the interface operations below take it
explicitly. -/
structure LocalSandbox where
  id : String
deriving Repr, DecidableEq

/-- Embeds `LocalSandbox.get_preview_link` (line 225):
`f"http://localhost:{port}"`. -/
def LocalSandbox.get_preview_link (_sb : LocalSandbox) (port : Nat) : String :=
  "http://localhost:" ++ toString port

/-- The local-mode module state: the world, the memoized `_local_sandbox`
module variable, and the trace of external calls made so far. -/
structure LState where
  world : LocalWorld
  localSandbox : Option LocalSandbox
  trace : List ExtCall
deriving Repr, DecidableEq

/-- Handle returned by `LocalProcess.execute_session_command`:
`{"cmd_id": cmd, "exit_code": 0}`. -/
structure SessionCmdHandle where
  cmd_id : String
  exit_code : Int
deriving Repr, DecidableEq

namespace LocalProcess

/-- Embeds `LocalProcess.create_session` (lines 83-96):
`subprocess.run(["docker","exec",cid,"tmux","new-session","-d","-s",sid], check=False)`.
The tmux session comes to exist in the world; `check=False` means a
non-zero exit (e.g. the session already exists) is ignored. -/
def create_session (cid : String) (st : LState) (sid : String) :
    Except PyErr (Unit × LState) :=
  let w := st.world
  let w' := if (alookup w.panes sid).isSome then w
            else { w with panes := aset w.panes sid [] }
  let st1 : LState := { st with world := w', trace := st.trace ++ [.tmuxNew cid sid] }
  match subprocessRun false w.tmuxNewRc with
  | .error e => .error e
  | .ok _ => .ok ((), st1)

/-- Embeds `LocalProcess.delete_session` (lines 98-110):
`subprocess.run(["docker","exec",cid,"tmux","kill-session","-t",sid], check=False)`.
A non-existent session makes tmux exit non-zero, which is ignored. -/
def delete_session (cid : String) (st : LState) (sid : String) :
    Except PyErr (Unit × LState) :=
  let w := st.world
  let w' := { w with panes := aremove w.panes sid }
  let st1 : LState := { st with world := w', trace := st.trace ++ [.tmuxKill cid sid] }
  match subprocessRun false w.tmuxKillRc with
  | .error e => .error e
  | .ok _ => .ok ((), st1)

/-- Embeds `LocalProcess.execute_session_command` (lines 112-132): sends
the command text to the pane with `tmux send-keys ... Enter`
(`check=False`), then returns `{"cmd_id": cmd, "exit_code": 0}`
unconditionally — completion cannot be observed, the `var_async` flag is
ignored. -/
def execute_session_command (cid : String) (st : LState) (sid command : String)
    (_varAsync : Bool) : Except PyErr (SessionCmdHandle × LState) :=
  let w := st.world
  let w' := { w with
    panes := aset w.panes sid (((alookup w.panes sid).getD []) ++ [command]) }
  let st1 : LState := { st with world := w', trace := st.trace ++ [.tmuxSend cid sid command] }
  match subprocessRun false w.tmuxSendRc with
  | .error e => .error e
  | .ok _ => .ok ({ cmd_id := command, exit_code := 0 }, st1)

end LocalProcess

namespace LocalFS

/-- Embeds `LocalFS.create_folder` (lines 161-183): `mkdir -p path` then
`chmod permissions path`, both with `check=False`. -/
def create_folder (cid : String) (st : LState) (path perms : String) :
    Except PyErr (Unit × LState) :=
  let st1 : LState := { st with trace := st.trace ++ [.mkdirP cid path] }
  match subprocessRun false st.world.mkdirRc with
  | .error e => .error e
  | .ok _ =>
    let st2 : LState := { st1 with trace := st1.trace ++ [.chmodCall cid perms path] }
    match subprocessRun false st.world.chmodRc with
    | .error e => .error e
    | .ok _ => .ok ((), st2)

/-- Embeds `LocalFS.upload_file` (lines 185-198):
`docker exec -i cid bash -c "cat > <shlex.quote(path)>"` with
`input=data`.  `shlex.quote` makes the shell treat the path literally, so
the bytes on stdin become the content of the file named `path`; no
`check` is requested, so the call never raises. -/
def upload_file (cid : String) (st : LState) (path : String) (data : Bytes) :
    Except PyErr (Unit × LState) :=
  let w := st.world
  let w' := { w with files := aset w.files path data }
  .ok ((), { st with world := w', trace := st.trace ++ [.catWrite cid path] })

/-- Embeds `LocalFS.download_file` (lines 200-205):
`docker exec cid cat path` with `capture_output=True` and no `check`;
returns `result.stdout` unconditionally.  When the file does not exist,
`cat` exits non-zero with empty stdout, and the code still returns the
(empty) stdout bytes. -/
def download_file (cid : String) (st : LState) (path : String) :
    Except PyErr (Bytes × LState) :=
  let st1 : LState := { st with trace := st.trace ++ [.catRead cid path] }
  match alookup st.world.files path with
  | some d => .ok (d, st1)
  | none => .ok ([], st1)

/-- Embeds `LocalFS.delete_file` (lines 207-211):
`docker exec cid rm -f path` with `check=False`. -/
def delete_file (cid : String) (st : LState) (path : String) :
    Except PyErr (Unit × LState) :=
  let w := st.world
  let w' := { w with files := aremove w.files path }
  let st1 : LState := { st with world := w', trace := st.trace ++ [.rmF cid path] }
  match subprocessRun false w.rmRc with
  | .error e => .error e
  | .ok _ => .ok ((), st1)

/-- Embeds `LocalFS.set_file_permissions` (lines 213-217):
`docker exec cid chmod permissions path` with `check=False`. -/
def set_file_permissions (cid : String) (st : LState) (path perms : String) :
    Except PyErr (Unit × LState) :=
  let st1 : LState := { st with trace := st.trace ++ [.chmodCall cid perms path] }
  match subprocessRun false st.world.chmodRc with
  | .error e => .error e
  | .ok _ => .ok ((), st1)

end LocalFS

/-- Embeds `_ensure_local_sandbox` (lines 228-251).  If `_local_sandbox`
is memoized, return it with no external call.  Otherwise run
`docker compose up -d` with `check=True` (raises on failure), then
`subprocess.check_output(["docker","compose",...,"ps","-q","kortix-suna"])`
(raises on failure), decode and strip the output, and memoize
`LocalSandbox(container_id or "local-sandbox")` — the Python `or` picks
the sentinel exactly when the stripped output is empty. -/
def ensureLocalSandbox (st : LState) : Except PyErr (LocalSandbox × LState) :=
  match st.localSandbox with
  | some sb => .ok (sb, st)
  | none =>
    let st1 : LState := { st with trace := st.trace ++ [.composeUp] }
    match subprocessRun true st.world.composeUpRc with
    | .error e => .error e
    | .ok _ =>
      let st2 : LState := { st1 with trace := st1.trace ++ [.composePsQ] }
      match subprocessRun true st.world.psQRc with
      | .error e => .error e
      | .ok _ =>
        let cid := pyStrip st.world.psQOutput
        let sb : LocalSandbox := { id := if cid = "" then "local-sandbox" else cid }
        .ok (sb, { st2 with localSandbox := some sb })

/-- Embeds the local branch of `delete_sandbox` (lines 362-366):
`docker compose down` with `check=False` (its exit code is ignored),
then `_local_sandbox = None` and `return True`. -/
def deleteSandboxLocal (st : LState) : Bool × LState :=
  let st1 : LState := { st with trace := st.trace ++ [.composeDown] }
  (true, { st1 with localSandbox := none })

/-! ## Remote backend

The remote orchestration API is an external collaborator (the source
only imports its SDK), so its behaviour is modelled from the spec's
external-interface contract (spec section 6): `get(id) -> handle | fail`,
`create(params) -> handle`, `start(handle)` transitions a
stopped/archived instance to running asynchronously and requires a state
re-fetch, `remove(handle)` deletes it.  The module's own code
(`get_or_start_sandbox`, `start_supervisord_session`, `create_sandbox`,
`delete_sandbox`) is embedded from the source on top of that model. -/

/-- Remote sandbox states (`WorkspaceState`); the spec's enum is
{running, stopped, archived, unknown}. -/
inductive WorkspaceState where
  | running
  | stopped
  | archived
  | unknown
deriving Repr, DecidableEq

/-- The remote sandbox handle as the module reads it: its id and
`instance.state`. -/
structure RemoteSandbox where
  id : String
  state : WorkspaceState
deriving Repr, DecidableEq

/-- The remote API calls the module makes, recorded in order. -/
inductive RemoteCall where
  | get (id : String)
  | start (id : String)
  | createSandbox (id : String)
  | remove (id : String)
  | createSession (id sid : String)
  | execSessionCmd (id sid command : String) (varAsync : Bool)
deriving Repr, DecidableEq

/-- Remote-side state: the orchestrator's sandbox table (id to state), a
fresh id the next `create` will assign, and the trace of API calls. -/
structure RState where
  sandboxes : List (String × WorkspaceState)
  freshId : String
  trace : List RemoteCall
deriving Repr, DecidableEq

/-- Modelled from the spec: `get(id)` retrieves the current state of the
sandbox with that id, or fails if it cannot be retrieved (embeds
`daytona.get_current_sandbox(sandbox_id)`). -/
def daytonaGet (st : RState) (id : String) : Except PyErr (RemoteSandbox × RState) :=
  let st1 : RState := { st with trace := st.trace ++ [.get id] }
  match alookup st.sandboxes id with
  | some w => .ok ({ id := id, state := w }, st1)
  | none => .error (.sandboxNotFound id)

/-- Modelled from the spec: `start(handle)` transitions a
stopped/archived instance to running; the transition is asynchronous on
the remote side and is observed by the next re-fetch (embeds
`daytona.start(sandbox)`). -/
def daytonaStart (st : RState) (sb : RemoteSandbox) : RState :=
  { st with sandboxes := aset st.sandboxes sb.id .running,
            trace := st.trace ++ [.start sb.id] }

/-- Modelled from the spec: `remove(handle)` deletes the sandbox
permanently (embeds `daytona.remove(sandbox)`). -/
def daytonaRemove (st : RState) (sb : RemoteSandbox) : RState :=
  { st with sandboxes := aremove st.sandboxes sb.id,
            trace := st.trace ++ [.remove sb.id] }

/-- Creation parameters built by `create_sandbox` (lines 324-346). -/
structure CreateParams where
  image : String
  publicFlag : Bool
  labels : Option (List (String × String))
  env_vars : List (String × String)
  cpu : Nat
  memory : Nat
  disk : Nat
deriving Repr, DecidableEq

/-- Modelled from the spec: `create(params)` provisions a new instance
and returns its handle once provisioned, i.e. running (embeds
`daytona.create(params)`). -/
def daytonaCreate (st : RState) (_params : CreateParams) : RemoteSandbox × RState :=
  let sb : RemoteSandbox := { id := st.freshId, state := .running }
  (sb, { st with sandboxes := aset st.sandboxes sb.id .running,
                 trace := st.trace ++ [.createSandbox sb.id] })

/-- `sandbox.process.create_session(session_id)` on a remote sandbox. -/
def remoteCreateSession (st : RState) (sb : RemoteSandbox) (sid : String) : RState :=
  { st with trace := st.trace ++ [.createSession sb.id sid] }

/-- `sandbox.process.execute_session_command(session_id, req)` on a
remote sandbox. -/
def remoteExecSessionCmd (st : RState) (sb : RemoteSandbox) (sid command : String)
    (varAsync : Bool) : RState :=
  { st with trace := st.trace ++ [.execSessionCmd sb.id sid command varAsync] }

/-- The command submitted by `start_supervisord_session` (line 301). -/
def supervisordCommand : String :=
  "exec /usr/bin/supervisord -n -c /etc/supervisor/conf.d/supervisord.conf"

/-- The fixed session name used by `start_supervisord_session` (line 289). -/
def supervisordSessionId : String := "supervisord-session"

/-- Embeds the remote branch of `start_supervisord_session` (lines
287-308): create the fixed-name session, then submit the supervisord
command asynchronously (`var_async=True`).  (In local mode the function
returns immediately, see `start_supervisord_session` below.) -/
def startSupervisordSessionRemote (st : RState) (sb : RemoteSandbox) : RState :=
  let st1 := remoteCreateSession st sb supervisordSessionId
  remoteExecSessionCmd st1 sb supervisordSessionId supervisordCommand true

/-- Embeds the remote branch of `get_or_start_sandbox` (lines 261-281):
fetch by id; if the state is ARCHIVED or STOPPED, call `start`, re-fetch
the sandbox, and bootstrap the supervisord session on the re-fetched
handle; otherwise return the fetched handle as is.  Failures propagate
(logged then re-raised in the source). -/
def getOrStartSandboxRemote (st : RState) (id : String) :
    Except PyErr (RemoteSandbox × RState) :=
  match daytonaGet st id with
  | .error e => .error e
  | .ok (sb, st1) =>
    if sb.state = .archived ∨ sb.state = .stopped then
      let st2 := daytonaStart st1 sb
      match daytonaGet st2 id with
      | .error e => .error e
      | .ok (sb2, st3) => .ok (sb2, startSupervisordSessionRemote st3 sb2)
    else
      .ok (sb, st1)

/-! ## Top-level lifecycle operations

The module-level functions branch on the `_use_daytona` flag computed
once at initialization; the whole-process state carries the environment
seen at that initialization together with both backends' states. -/

/-- A sandbox handle returned by the lifecycle operations. -/
inductive SandboxHandle where
  | localSb (sb : LocalSandbox)
  | remoteSb (sb : RemoteSandbox)
deriving Repr, DecidableEq

/-- Whole-process state: the environment captured at module
initialization (never written by any operation), and the two backend
states. -/
structure SysState where
  env : List (String × String)
  localSt : LState
  remoteSt : RState
deriving Repr, DecidableEq

/-- Embeds `start_supervisord_session` (lines 287-308) at the dispatch
level: in local mode it returns immediately (the container's entrypoint
already runs supervisord); in remote mode it bootstraps the session. -/
def start_supervisord_session (s : SysState) (sb : SandboxHandle) : SysState :=
  if useDaytona s.env = false then s
  else
    match sb with
    | .remoteSb rsb => { s with remoteSt := startSupervisordSessionRemote s.remoteSt rsb }
    | .localSb _ => s

/-- Embeds `get_or_start_sandbox` (lines 253-285): in local mode it
returns `_ensure_local_sandbox()` (ignoring the id); in remote mode it
runs the fetch/start/re-fetch/bootstrap logic. -/
def get_or_start_sandbox (s : SysState) (id : String) :
    Except PyErr (SandboxHandle × SysState) :=
  if useDaytona s.env = false then
    match ensureLocalSandbox s.localSt with
    | .error e => .error e
    | .ok (sb, lst) => .ok (.localSb sb, { s with localSt := lst })
  else
    match getOrStartSandboxRemote s.remoteSt id with
    | .error e => .error e
    | .ok (sb, rst) => .ok (.remoteSb sb, { s with remoteSt := rst })

/-- The fixed environment injected into every newly created remote
sandbox (lines 328-340), with the caller's password as `VNC_PASSWORD`. -/
def sandboxEnvVars (password : String) : List (String × String) :=
  [("CHROME_PERSISTENT_SESSION", "true"),
   ("RESOLUTION", "1024x768x24"),
   ("RESOLUTION_WIDTH", "1024"),
   ("RESOLUTION_HEIGHT", "768"),
   ("VNC_PASSWORD", password),
   ("ANONYMIZED_TELEMETRY", "false"),
   ("CHROME_PATH", ""),
   ("CHROME_USER_DATA", ""),
   ("CHROME_DEBUGGING_PORT", "9222"),
   ("CHROME_DEBUGGING_HOST", "localhost"),
   ("CHROME_CDP", "")]

/-- Embeds `create_sandbox` (lines 310-356): in local mode it is
`_ensure_local_sandbox()`; in remote mode it builds the creation
parameters (labels keyed by the project id when supplied), provisions,
bootstraps the supervisord session, and returns the handle. -/
def create_sandbox (s : SysState) (password : String) (projectId : Option String) :
    Except PyErr (SandboxHandle × SysState) :=
  if useDaytona s.env = false then
    match ensureLocalSandbox s.localSt with
    | .error e => .error e
    | .ok (sb, lst) => .ok (.localSb sb, { s with localSt := lst })
  else
    let labels := match projectId with
      | some pid => some [("id", pid)]
      | none => none
    let params : CreateParams :=
      { image := "SANDBOX_IMAGE_NAME", publicFlag := true, labels := labels,
        env_vars := sandboxEnvVars password, cpu := 2, memory := 4, disk := 5 }
    let (sb, rst) := daytonaCreate s.remoteSt params
    let rst2 := startSupervisordSessionRemote rst sb
    .ok (.remoteSb sb, { s with remoteSt := rst2 })

/-- Embeds `delete_sandbox` (lines 358-379): in local mode,
`docker compose down` (exit code ignored), clear `_local_sandbox`, return
True; in remote mode, fetch by id then remove, returning True, with
fetch failure propagated. -/
def delete_sandbox (s : SysState) (id : String) :
    Except PyErr (Bool × SysState) :=
  if useDaytona s.env = false then
    let (b, lst) := deleteSandboxLocal s.localSt
    .ok (b, { s with localSt := lst })
  else
    match daytonaGet s.remoteSt id with
    | .error e => .error e
    | .ok (sb, rst) => .ok (true, { s with remoteSt := daytonaRemove rst sb })

/-! ## Helper lemmas -/

/-- Looking up a key just set returns the value just set. -/
theorem alookup_aset_self {β : Type} (l : List (String × β)) (key : String) (v : β) :
    alookup (aset l key v) key = some v := by
  simp [aset, alookup]

/-- Number of occurrences of a remote API call in a trace. -/
def countRemoteCall (tr : List RemoteCall) (c : RemoteCall) : Nat :=
  (tr.filter (fun x => x = c)).length

/-! ## Witness fixtures: concrete worlds used to instantiate the
hypotheses of the theorems below. -/

/-- A local world where provisioning succeeds (the compose commands exit
0 and the container id resolves to "abc123") but teardown fails
(`docker compose down` exits 1). -/
def localWorldOk : LocalWorld :=
  { files := [], panes := [], composeUpRc := 0, psQRc := 0, psQOutput := "abc123\n",
    composeDownRc := 1, tmuxNewRc := 1, tmuxKillRc := 1, tmuxSendRc := 1,
    mkdirRc := 1, chmodRc := 1, rmRc := 1 }

/-- Initial local module state over `localWorldOk`: nothing memoized, no
calls made. -/
def lInit : LState := { world := localWorldOk, localSandbox := none, trace := [] }

/-- A remote world holding one stopped sandbox "sb-1". -/
def rStopped : RState :=
  { sandboxes := [("sb-1", .stopped)], freshId := "fresh-1", trace := [] }

/-- A remote world holding one running sandbox "sb-2". -/
def rRunning : RState :=
  { sandboxes := [("sb-2", .running)], freshId := "fresh-1", trace := [] }

/-- A process environment with the remote credential set. -/
def envRemote : List (String × String) := [("DAYTONA_API_KEY", "  key-123 ")]

/-- A process environment without the remote credential. -/
def envLocal : List (String × String) := [("PATH", "/usr/bin")]

/-- System state: credential present, remote sandbox "sb-1" stopped. -/
def sysRemoteStopped : SysState :=
  { env := envRemote, localSt := lInit, remoteSt := rStopped }

/-- System state: credential present, remote sandbox "sb-2" running. -/
def sysRemoteRunning : SysState :=
  { env := envRemote, localSt := lInit, remoteSt := rRunning }

/-- System state: credential absent, local backend selected. -/
def sysLocal : SysState :=
  { env := envLocal, localSt := lInit, remoteSt := rStopped }

/-! ## Claims -/

/-- C3: for every byte string `data` and every path, uploading `data` to
the path via the local backend's `upload_file` and then calling
`download_file` on the same path returns exactly `data` (in any prior
state, on any container). -/
theorem upload_download_roundtrip (cid : String) (st : LState) (path : String)
    (data : Bytes) :
    ∃ st1 st2, LocalFS.upload_file cid st path data = .ok ((), st1) ∧
      LocalFS.download_file cid st1 path = .ok (data, st2) := by
  refine ⟨{ st with
      world := { st.world with files := aset st.world.files path data },
      trace := st.trace ++ [.catWrite cid path] },
    { st with
      world := { st.world with files := aset st.world.files path data },
      trace := (st.trace ++ [.catWrite cid path]) ++ [.catRead cid path] },
    rfl, ?_⟩
  simp [LocalFS.download_file, alookup_aset_self]

/-- C7: for every session id, command and async flag, the local
backend's `execute_session_command` returns a handle whose exit code is
0, in every world — including those where the underlying
`tmux send-keys` invocation fails (its exit-code oracle is part of the
universally quantified state). -/
theorem execute_session_command_exit_code_zero (cid : String) (st : LState)
    (sid command : String) (varAsync : Bool) :
    ∃ st', LocalProcess.execute_session_command cid st sid command varAsync =
      .ok ({ cmd_id := command, exit_code := 0 }, st') :=
  ⟨_, rfl⟩

/-- C8: the local backend's session operations (`create_session`,
`delete_session`, `execute_session_command`) and filesystem operations
(`create_folder`, `delete_file`, `set_file_permissions`) never raise, in
every world — in particular in worlds where every subprocess exits
non-zero, where the session already exists (`create_session`) or does
not exist (`delete_session`). -/
theorem local_ops_never_raise (cid : String) (st : LState)
    (sid command path perms : String) (varAsync : Bool) :
    (LocalProcess.create_session cid st sid).isOk = true ∧
    (LocalProcess.delete_session cid st sid).isOk = true ∧
    (LocalProcess.execute_session_command cid st sid command varAsync).isOk = true ∧
    (LocalFS.create_folder cid st path perms).isOk = true ∧
    (LocalFS.delete_file cid st path).isOk = true ∧
    (LocalFS.set_file_permissions cid st path perms).isOk = true :=
  ⟨rfl, rfl, rfl, rfl, rfl, rfl⟩

/-- C10: the local backend's `download_file` has no error channel — on a
path whose read fails because the file does not exist, it returns the
empty byte string instead of raising, so a missing file is
indistinguishable from an existing empty file at the interface. -/
theorem download_missing_file_empty (cid : String) (st : LState) (path : String)
    (h : alookup st.world.files path = none) :
    ∃ st', LocalFS.download_file cid st path = .ok ([], st') := by
  unfold LocalFS.download_file
  rw [h]
  exact ⟨_, rfl⟩

/-- Number of occurrences of an external call in a local trace. -/
def countExtCall (tr : List ExtCall) (c : ExtCall) : Nat :=
  (tr.filter (fun x => x = c)).length

/-- C4: local-backend memoization.  If `_ensure_local_sandbox` succeeds
once, a repeated call (no teardown in between) returns the very same
memoized instance — same identifier — and the same state, so it performs
no further external call; across the two calls each provisioning
subprocess (`docker compose up`, `docker compose ps -q`) was invoked at
most once. -/
theorem ensure_memoized (st : LState) (sb : LocalSandbox) (st' : LState)
    (h : ensureLocalSandbox st = .ok (sb, st')) :
    ensureLocalSandbox st' = .ok (sb, st') ∧
    countExtCall st'.trace .composeUp ≤ countExtCall st.trace .composeUp + 1 ∧
    countExtCall st'.trace .composePsQ ≤ countExtCall st.trace .composePsQ + 1 := by
  unfold ensureLocalSandbox at h
  cases hm : st.localSandbox with
  | some sb0 =>
    rw [hm] at h
    simp only [Except.ok.injEq, Prod.mk.injEq] at h
    obtain ⟨rfl, rfl⟩ := h
    refine ⟨?_, Nat.le_succ _, Nat.le_succ _⟩
    unfold ensureLocalSandbox
    rw [hm]
  | none =>
    rw [hm] at h
    by_cases h1 : st.world.composeUpRc = 0
    · by_cases h2 : st.world.psQRc = 0
      · simp [subprocessRun, h1, h2] at h
        obtain ⟨rfl, rfl⟩ := h
        refine ⟨by unfold ensureLocalSandbox; rfl, ?_, ?_⟩ <;>
          simp [countExtCall, List.filter_append]
      · simp [subprocessRun, h1, h2] at h
    · simp [subprocessRun, h1] at h

/-- Witness for C4: with a successful provisioning world,
`_ensure_local_sandbox` memoizes the container id "abc123" and the
repeated call returns the same instance and state. -/
theorem ensure_memoized_witness :
    ensureLocalSandbox lInit =
      .ok ({ id := "abc123" },
           { world := localWorldOk, localSandbox := some { id := "abc123" },
             trace := [.composeUp, .composePsQ] }) ∧
    (ensureLocalSandbox
        { world := localWorldOk, localSandbox := some { id := "abc123" },
          trace := [.composeUp, .composePsQ] } =
      .ok ({ id := "abc123" },
           { world := localWorldOk, localSandbox := some { id := "abc123" },
             trace := [.composeUp, .composePsQ] }) ∧
     countExtCall [ExtCall.composeUp, ExtCall.composePsQ] .composeUp ≤
       countExtCall lInit.trace .composeUp + 1 ∧
     countExtCall [ExtCall.composeUp, ExtCall.composePsQ] .composePsQ ≤
       countExtCall lInit.trace .composePsQ + 1) :=
  ⟨rfl, ensure_memoized lInit { id := "abc123" }
      { world := localWorldOk, localSandbox := some { id := "abc123" },
        trace := [.composeUp, .composePsQ] } rfl⟩

/-- C5: the local branch of `delete_sandbox` always reports success and
clears the memoized `_local_sandbox`, in every world — including those
where `docker compose down` exits non-zero (its exit code is part of the
universally quantified state and is never consulted); consequently the
next `_ensure_local_sandbox` call re-provisions: it re-runs
`docker compose up` and re-attempts the container identifier lookup,
deriving the fresh instance's id from the lookup's output. -/
theorem delete_always_succeeds_and_clears (st : LState) :
    (deleteSandboxLocal st).1 = true ∧
    (deleteSandboxLocal st).2.localSandbox = none ∧
    (∀ sb st2, ensureLocalSandbox (deleteSandboxLocal st).2 = .ok (sb, st2) →
      st2.trace = st.trace ++ [.composeDown, .composeUp, .composePsQ] ∧
      sb.id = (if pyStrip st.world.psQOutput = "" then "local-sandbox"
               else pyStrip st.world.psQOutput)) := by
  refine ⟨rfl, rfl, ?_⟩
  intro sb st2 h
  unfold deleteSandboxLocal ensureLocalSandbox at h
  by_cases h1 : st.world.composeUpRc = 0
  · by_cases h2 : st.world.psQRc = 0
    · simp [subprocessRun, h1, h2] at h
      obtain ⟨rfl, rfl⟩ := h
      exact ⟨by simp, rfl⟩
    · simp [subprocessRun, h1, h2] at h
  · simp [subprocessRun, h1] at h

/-- Witness for C5: over a world whose `docker compose down` exits 1,
deletion still returns True and clears the memo, and the subsequent
ensure re-runs both provisioning calls and re-derives the id "abc123". -/
theorem delete_always_succeeds_and_clears_witness :
    (deleteSandboxLocal lInit).1 = true ∧
    (deleteSandboxLocal lInit).2.localSandbox = none ∧
    (∀ sb st2, ensureLocalSandbox (deleteSandboxLocal lInit).2 = .ok (sb, st2) →
      st2.trace = lInit.trace ++ [.composeDown, .composeUp, .composePsQ] ∧
      sb.id = (if pyStrip lInit.world.psQOutput = "" then "local-sandbox"
               else pyStrip lInit.world.psQOutput)) :=
  delete_always_succeeds_and_clears lInit

/-- Witness for C10: downloading the missing file "/missing.txt" from the
empty container filesystem returns empty bytes. -/
theorem download_missing_file_empty_witness :
    alookup lInit.world.files "/missing.txt" = none ∧
    ∃ st', LocalFS.download_file "c0" lInit "/missing.txt" = .ok ([], st') :=
  ⟨rfl, download_missing_file_empty "c0" lInit "/missing.txt" rfl⟩

/-- C1: with the remote backend selected and the sandbox retrieved by
`id` in state stopped or archived, `get_or_start_sandbox` calls `start`
exactly once, fetches the sandbox state exactly twice (the initial fetch
plus exactly one re-fetch after starting), bootstraps exactly one
supervisord session (one `create_session` and one async supervisord
command submission), and the handle it returns has state running. -/
theorem getOrStart_stopped_starts_once (s : SysState) (id : String)
    (st0 : WorkspaceState)
    (henv : useDaytona s.env = true)
    (htr : s.remoteSt.trace = [])
    (hlook : alookup s.remoteSt.sandboxes id = some st0)
    (hstate : st0 = .stopped ∨ st0 = .archived) :
    ∃ sb s', get_or_start_sandbox s id = .ok (.remoteSb sb, s') ∧
      sb.state = .running ∧
      countRemoteCall s'.remoteSt.trace (.start id) = 1 ∧
      countRemoteCall s'.remoteSt.trace (.get id) = 2 ∧
      countRemoteCall s'.remoteSt.trace (.createSession id supervisordSessionId) = 1 ∧
      countRemoteCall s'.remoteSt.trace
        (.execSessionCmd id supervisordSessionId supervisordCommand true) = 1 := by
  have key : get_or_start_sandbox s id =
      .ok (.remoteSb { id := id, state := .running },
        { s with remoteSt :=
          { sandboxes := aset s.remoteSt.sandboxes id .running,
            freshId := s.remoteSt.freshId,
            trace := [.get id, .start id, .get id,
                      .createSession id supervisordSessionId,
                      .execSessionCmd id supervisordSessionId supervisordCommand true] } }) := by
    rcases hstate with rfl | rfl <;>
      simp [get_or_start_sandbox, henv, getOrStartSandboxRemote, daytonaGet, hlook, htr,
        daytonaStart, startSupervisordSessionRemote, remoteCreateSession,
        remoteExecSessionCmd, alookup_aset_self]
  refine ⟨_, _, key, rfl, ?_, ?_, ?_, ?_⟩ <;> simp [countRemoteCall]

/-- Witness for C1: credential present, remote sandbox "sb-1" stopped —
`get_or_start_sandbox` performs exactly one start, two fetches and one
supervisord-session bootstrap, and returns a running handle. -/
theorem getOrStart_stopped_starts_once_witness :
    useDaytona sysRemoteStopped.env = true ∧
    sysRemoteStopped.remoteSt.trace = [] ∧
    alookup sysRemoteStopped.remoteSt.sandboxes "sb-1" = some .stopped ∧
    (∃ sb s', get_or_start_sandbox sysRemoteStopped "sb-1" = .ok (.remoteSb sb, s') ∧
      sb.state = .running ∧
      countRemoteCall s'.remoteSt.trace (.start "sb-1") = 1 ∧
      countRemoteCall s'.remoteSt.trace (.get "sb-1") = 2 ∧
      countRemoteCall s'.remoteSt.trace (.createSession "sb-1" supervisordSessionId) = 1 ∧
      countRemoteCall s'.remoteSt.trace
        (.execSessionCmd "sb-1" supervisordSessionId supervisordCommand true) = 1) :=
  ⟨by decide, rfl, rfl,
   getOrStart_stopped_starts_once sysRemoteStopped "sb-1" .stopped (by decide) rfl rfl
     (Or.inl rfl)⟩

/-- C2: with the remote backend selected and the sandbox retrieved by
`id` in a state that is neither stopped nor archived,
`get_or_start_sandbox` makes no `start` call and no supervisor-session
bootstrap — the only remote call it adds is the single fetch — and it
returns the fetched handle unchanged, leaving the sandbox table as it
was. -/
theorem getOrStart_running_no_start (s : SysState) (id : String)
    (st0 : WorkspaceState)
    (henv : useDaytona s.env = true)
    (hlook : alookup s.remoteSt.sandboxes id = some st0)
    (h1 : st0 ≠ .stopped) (h2 : st0 ≠ .archived) :
    get_or_start_sandbox s id =
      .ok (.remoteSb { id := id, state := st0 },
           { s with remoteSt :=
              { s.remoteSt with trace := s.remoteSt.trace ++ [.get id] } }) := by
  have hcond : ¬(st0 = WorkspaceState.archived ∨ st0 = WorkspaceState.stopped) :=
    fun hc => hc.elim h2 h1
  simp [get_or_start_sandbox, henv, getOrStartSandboxRemote, daytonaGet, hlook, hcond]

/-- Witness for C2: credential present, remote sandbox "sb-2" running —
`get_or_start_sandbox` only fetches and returns the handle unchanged. -/
theorem getOrStart_running_no_start_witness :
    useDaytona sysRemoteRunning.env = true ∧
    alookup sysRemoteRunning.remoteSt.sandboxes "sb-2" = some .running ∧
    get_or_start_sandbox sysRemoteRunning "sb-2" =
      .ok (.remoteSb { id := "sb-2", state := .running },
           { sysRemoteRunning with remoteSt :=
              { sysRemoteRunning.remoteSt with
                  trace := sysRemoteRunning.remoteSt.trace ++ [.get "sb-2"] } }) :=
  ⟨by decide, rfl,
   getOrStart_running_no_start sysRemoteRunning "sb-2" .running (by decide) rfl
     (by decide) (by decide)⟩

/-- C6: backend selection is a pure function of the environment captured
once at module initialization: the remote backend is selected iff the
`DAYTONA_API_KEY` value is non-empty after trimming whitespace; when it
is absent or blank, the lifecycle operations (`get_or_start_sandbox`,
`create_sandbox`, `delete_sandbox`) all route to the local backend; and
no operation ever changes the captured environment, so the choice holds
for the process lifetime. -/
theorem backend_selection_once (env : List (String × String)) :
    (useDaytona env = true ↔ pyStrip (osGetenvDefault env "DAYTONA_API_KEY" "") ≠ "") ∧
    (useDaytona env = false →
      ∀ (s : SysState) (id password : String) (pid : Option String), s.env = env →
        get_or_start_sandbox s id =
          (match ensureLocalSandbox s.localSt with
           | .error e => .error e
           | .ok (sb, lst) => .ok (.localSb sb, { s with localSt := lst })) ∧
        create_sandbox s password pid =
          (match ensureLocalSandbox s.localSt with
           | .error e => .error e
           | .ok (sb, lst) => .ok (.localSb sb, { s with localSt := lst })) ∧
        delete_sandbox s id =
          .ok (true, { s with localSt := (deleteSandboxLocal s.localSt).2 })) ∧
    (∀ (s : SysState) (id : String) (h : SandboxHandle) (s' : SysState), s.env = env →
      get_or_start_sandbox s id = .ok (h, s') → s'.env = env) := by
  refine ⟨?_, ?_, ?_⟩
  · simp [useDaytona, daytonaApiKeyOf]
  · intro hflag s id password pid hs
    subst hs
    refine ⟨?_, ?_, ?_⟩
    · simp [get_or_start_sandbox, hflag]
    · simp [create_sandbox, hflag]
    · simp [delete_sandbox, hflag, deleteSandboxLocal]
  · intro s id h s' hs hrun
    unfold get_or_start_sandbox at hrun
    split at hrun
    · cases he : ensureLocalSandbox s.localSt with
      | error e => rw [he] at hrun; simp at hrun
      | ok p =>
        obtain ⟨sb, lst⟩ := p
        rw [he] at hrun
        simp only [Except.ok.injEq, Prod.mk.injEq] at hrun
        obtain ⟨-, rfl⟩ := hrun
        exact hs
    · cases he : getOrStartSandboxRemote s.remoteSt id with
      | error e => rw [he] at hrun; simp at hrun
      | ok p =>
        obtain ⟨sb, rst⟩ := p
        rw [he] at hrun
        simp only [Except.ok.injEq, Prod.mk.injEq] at hrun
        obtain ⟨-, rfl⟩ := hrun
        exact hs

/-- Witness for C6: the environment without the credential selects the
local backend (and the one with a non-blank credential selects the
remote backend), with the routing facts instantiated at that
environment. -/
theorem backend_selection_once_witness :
    ((useDaytona envLocal = true ↔
        pyStrip (osGetenvDefault envLocal "DAYTONA_API_KEY" "") ≠ "") ∧
     (useDaytona envLocal = false →
       ∀ (s : SysState) (id password : String) (pid : Option String), s.env = envLocal →
         get_or_start_sandbox s id =
           (match ensureLocalSandbox s.localSt with
            | .error e => .error e
            | .ok (sb, lst) => .ok (.localSb sb, { s with localSt := lst })) ∧
         create_sandbox s password pid =
           (match ensureLocalSandbox s.localSt with
            | .error e => .error e
            | .ok (sb, lst) => .ok (.localSb sb, { s with localSt := lst })) ∧
         delete_sandbox s id =
           .ok (true, { s with localSt := (deleteSandboxLocal s.localSt).2 })) ∧
     (∀ (s : SysState) (id : String) (h : SandboxHandle) (s' : SysState),
        s.env = envLocal →
        get_or_start_sandbox s id = .ok (h, s') → s'.env = envLocal)) ∧
    useDaytona envLocal = false ∧ useDaytona envRemote = true :=
  ⟨backend_selection_once envLocal, by decide, by decide⟩

/-- The system state reached from `sysLocal` after the first successful
local provisioning (used by the C9 witness). -/
def sysLocalAfterEnsure : SysState :=
  { env := envLocal,
    localSt := { world := localWorldOk, localSandbox := some { id := "abc123" },
                 trace := [.composeUp, .composePsQ] },
    remoteSt := rStopped }

/-- C9: when the credential is absent (local backend), a successful
`create_sandbox` with any password returns a local handle whose
`get_preview_link port` is the string "http://localhost:" followed by
the decimal port; in particular `get_preview_link 8080` is
"http://localhost:8080". -/
theorem create_local_preview_link (s : SysState) (password : String)
    (pid : Option String) (h : SandboxHandle) (s' : SysState)
    (henv : useDaytona s.env = false)
    (hrun : create_sandbox s password pid = .ok (h, s')) :
    ∃ sb : LocalSandbox, h = .localSb sb ∧
      sb.get_preview_link 8080 = "http://localhost:8080" ∧
      ∀ port : Nat, sb.get_preview_link port = "http://localhost:" ++ toString port := by
  unfold create_sandbox at hrun
  rw [if_pos henv] at hrun
  cases he : ensureLocalSandbox s.localSt with
  | error e => rw [he] at hrun; simp at hrun
  | ok p =>
    obtain ⟨sb, lst⟩ := p
    rw [he] at hrun
    simp only [Except.ok.injEq, Prod.mk.injEq] at hrun
    obtain ⟨rfl, -⟩ := hrun
    exact ⟨sb, rfl, rfl, fun port => rfl⟩

/-- Witness for C9: credential absent, `create_sandbox "pw"` succeeds and
the returned handle's preview link for port 8080 is
"http://localhost:8080". -/
theorem create_local_preview_link_witness :
    useDaytona sysLocal.env = false ∧
    create_sandbox sysLocal "pw" none =
      .ok (.localSb { id := "abc123" }, sysLocalAfterEnsure) ∧
    (∃ sb : LocalSandbox, SandboxHandle.localSb { id := "abc123" } = .localSb sb ∧
      sb.get_preview_link 8080 = "http://localhost:8080" ∧
      ∀ port : Nat, sb.get_preview_link port = "http://localhost:" ++ toString port) :=
  ⟨by decide, rfl,
   create_local_preview_link sysLocal "pw" none (.localSb { id := "abc123" })
     sysLocalAfterEnsure (by decide) rfl⟩

end SandboxSpec
